import Mathlib

/-!
Verification of the vibe-cli Agent Session Orchestrator core against its
specification.  The definitions below are a shallow embedding of the
TypeScript sources: the Gemini permission handler
(`GeminiPermissionHandler`), the Gemini/Cursor event-normalization
handlers, the identifier latch of `GeminiClient`/`CursorClient`, the
argument construction of `GeminiClient.startSession`/`continueSession`,
and one iteration of the `runGemini`/`runCursor` session loop.
JavaScript strings that may be absent are modelled as `String` with `""`
standing for a missing/falsy field; `a || b` on strings is `jsOr`.
-/

/-- JavaScript `a || b` for strings: the first truthy (non-empty) value. -/
def jsOr (a b : String) : String := if a = "" then b else a

/-- JavaScript truthiness of a `string | null` value. -/
def jsTruthyOpt : Option String → Bool
  | none => false
  | some s => s ≠ ""

/-! ## Permission handler (GeminiPermissionHandler)

The handler keeps a `Map` from `toolCallId` to a pending request holding
the deferred `resolve`/`reject` pair.  We model the map as an association
list with JS `Map` semantics (`mapSet` replaces in place, `mapGet` finds,
`mapDelete` removes the entry), and we model each deferred result by a
unique numeric id together with a settlement ledger: settling a deferred
appends one `Outcome` entry for its id. -/

/-- `PermissionResult` from the source: decision plus optional reason. -/
inductive PermDecision where
  | approved
  | denied
  deriving DecidableEq, Repr

structure PermissionResult where
  decision : PermDecision
  reason : Option String
  deriving DecidableEq, Repr

/-- How a deferred promise was settled: `resolve(result)` or `reject(err)`. -/
inductive Outcome where
  | resolved (result : PermissionResult)
  | rejected (errMessage : String)
  deriving DecidableEq, Repr

/-- One entry of `pendingRequests`: the deferred identity plus the stored
`toolName`/`input` fields of `PendingRequest`. -/
structure PendingEntry where
  deferredId : Nat
  toolName : String
  input : String
  deriving DecidableEq, Repr

/-- JS `Map.set`: replace the value in place if the key exists, else append. -/
def mapSet (k : String) (v : PendingEntry) :
    List (String × PendingEntry) → List (String × PendingEntry)
  | [] => [(k, v)]
  | (k', v') :: rest =>
      if k' = k then (k, v) :: rest else (k', v') :: mapSet k v rest

/-- JS `Map.get`. -/
def mapGet (k : String) : List (String × PendingEntry) → Option PendingEntry
  | [] => none
  | (k', v') :: rest => if k' = k then some v' else mapGet k rest

/-- JS `Map.delete` (keys are unique in a `Map`, so deleting the first
occurrence is exact). -/
def mapDelete (k : String) :
    List (String × PendingEntry) → List (String × PendingEntry)
  | [] => []
  | (k', v') :: rest =>
      if k' = k then rest else (k', v') :: mapDelete k rest

/-- The observable state of a `GeminiPermissionHandler`: the pending map,
the settlement ledger of every deferred created so far, and the next
fresh deferred id. -/
structure HandlerState where
  pending : List (String × PendingEntry)
  settled : List (Nat × Outcome)
  nextId : Nat
  deriving DecidableEq, Repr

def handlerInit : HandlerState := { pending := [], settled := [], nextId := 0 }

/-- `handleToolCall(toolCallId, toolName, input)`: creates a fresh deferred
and stores the pending request with `Map.set` (note: no duplicate check in
the source - an existing entry for the same id is replaced).  Returns the
new state and the id of the deferred created by this call. -/
def handleToolCall (s : HandlerState) (toolCallId toolName input : String) :
    HandlerState × Nat :=
  ({ pending := mapSet toolCallId ⟨s.nextId, toolName, input⟩ s.pending,
     settled := s.settled,
     nextId := s.nextId + 1 }, s.nextId)

/-- The decision object built by the `permission` RPC handler:
`{ decision: approved ? 'approved' : 'denied', reason }`. -/
def rpcDecision (approved : Bool) (reason : Option String) : PermissionResult :=
  ⟨if approved then .approved else .denied, reason⟩

/-- The `permission` RPC handler registered in `setupRpcHandler`: if
`requestId` is pending, delete the entry and resolve its deferred with the
decision; otherwise only a debug log happens (state unchanged). -/
def permissionRpc (s : HandlerState) (requestId : String)
    (approved : Bool) (reason : Option String) : HandlerState :=
  match mapGet requestId s.pending with
  | some e =>
      { pending := mapDelete requestId s.pending,
        settled := s.settled ++ [(e.deferredId, .resolved (rpcDecision approved reason))],
        nextId := s.nextId }
  | none => s

/-- `reset()`: rejects every pending deferred with the fixed error
`Permission handler reset` (the source takes no reason argument), then
clears the map. -/
def resetHandler (s : HandlerState) : HandlerState :=
  { pending := [],
    settled := s.settled ++
      s.pending.map (fun p => (p.2.deferredId, Outcome.rejected "Permission handler reset")),
    nextId := s.nextId }

/-- `enumeratePending` of the spec corresponds to the pending map contents. -/
def enumeratePending (s : HandlerState) : List (String × PendingEntry) :=
  s.pending

/-! ### Map lemmas -/

theorem mapGet_mapSet_self (k : String) (v : PendingEntry) :
    ∀ l, mapGet k (mapSet k v l) = some v := by
  intro l
  induction l with
  | nil => simp [mapSet, mapGet]
  | cons hd tl ih =>
      obtain ⟨k', v'⟩ := hd
      by_cases h : k' = k
      · simp [mapSet, mapGet, h]
      · simp [mapSet, mapGet, h, ih]

theorem mapGet_eq_none_of_not_mem (k : String) :
    ∀ l : List (String × PendingEntry), k ∉ l.map Prod.fst → mapGet k l = none := by
  intro l
  induction l with
  | nil => intro _; simp [mapGet]
  | cons hd tl ih =>
      intro h
      obtain ⟨k', v'⟩ := hd
      simp only [List.map_cons, List.mem_cons] at h
      push_neg at h
      have hk : k' ≠ k := fun hkk => h.1 hkk.symm
      simp [mapGet, hk, ih h.2]

theorem mapGet_mapDelete_self (k : String) :
    ∀ l : List (String × PendingEntry), (l.map Prod.fst).Nodup →
      mapGet k (mapDelete k l) = none := by
  intro l
  induction l with
  | nil => intro _; simp [mapDelete, mapGet]
  | cons hd tl ih =>
      intro hnd
      obtain ⟨k', v'⟩ := hd
      simp only [List.map_cons, List.nodup_cons] at hnd
      by_cases h : k' = k
      · subst h
        exact (by simpa [mapDelete] using mapGet_eq_none_of_not_mem k' tl hnd.1)
      · simp [mapDelete, mapGet, h, ih hnd.2]

/-! ### Claims C2, C3, C4 about the permission handler -/

/-- C2 counterexample: calling `handleToolCall` twice with the same
`toolCallId` does not fail and does not leave the already-pending entry
intact: the second call replaces the entry (the map now holds the second
request, with a fresh deferred id), refuting the claimed
`DuplicateCallId` fail-closed behavior. -/
theorem c2_duplicate_callid_not_rejected :
    ((handleToolCall (handleToolCall handlerInit "t1" "Bash" "rm x").1
        "t1" "Read" "f.txt").1).pending
      = [("t1", ⟨1, "Read", "f.txt"⟩)]
    ∧ ((handleToolCall (handleToolCall handlerInit "t1" "Bash" "rm x").1
        "t1" "Read" "f.txt").1).pending
      ≠ ((handleToolCall handlerInit "t1" "Bash" "rm x").1).pending := by
  constructor
  · rfl
  · decide

/-- C2 (amended): when `toolCallId` already has a pending entry, a second
`handleToolCall` does not fail with `DuplicateCallId`; it overwrites the
pending entry with the new request (fresh deferred id), and the prior
entry's deferred result is left unsettled by this call (the settlement
ledger is unchanged, so the old deferred is simply abandoned). -/
theorem c2_amended_duplicate_overwrites (s : HandlerState)
    (callId toolName input : String) (e : PendingEntry)
    (he : mapGet callId s.pending = some e) :
    mapGet callId (handleToolCall s callId toolName input).1.pending
        = some ⟨s.nextId, toolName, input⟩
    ∧ (handleToolCall s callId toolName input).1.settled = s.settled
    ∧ (handleToolCall s callId toolName input).2 = s.nextId := by
  refine ⟨?_, rfl, rfl⟩
  exact mapGet_mapSet_self callId ⟨s.nextId, toolName, input⟩ s.pending

/-- Witness for `c2_amended_duplicate_overwrites` at a concrete state. -/
theorem c2_amended_duplicate_overwrites_witness :
    mapGet "t1" (handleToolCall (handleToolCall handlerInit "t1" "Bash" "rm x").1
        "t1" "Read" "f.txt").1.pending = some ⟨1, "Read", "f.txt"⟩
    ∧ (handleToolCall (handleToolCall handlerInit "t1" "Bash" "rm x").1
        "t1" "Read" "f.txt").1.settled
        = ((handleToolCall handlerInit "t1" "Bash" "rm x").1).settled
    ∧ (handleToolCall (handleToolCall handlerInit "t1" "Bash" "rm x").1
        "t1" "Read" "f.txt").2 = 1 :=
  c2_amended_duplicate_overwrites (handleToolCall handlerInit "t1" "Bash" "rm x").1
    "t1" "Read" "f.txt" ⟨0, "Bash", "rm x"⟩ (by decide)

/-- C3 counterexample: on a broker with one pending entry, `reset` does not
settle the deferred with a synthetic Denied decision carrying a
caller-supplied reason (for instance `mode-changed`): the source `reset()`
takes no reason argument and rejects the deferred with the fixed error
text `Permission handler reset`. -/
theorem c3_reset_rejects_without_reason :
    (resetHandler (handleToolCall handlerInit "t1" "Bash" "rm x").1).settled
      = [(0, Outcome.rejected "Permission handler reset")]
    ∧ (resetHandler (handleToolCall handlerInit "t1" "Bash" "rm x").1).settled
      ≠ [(0, Outcome.resolved ⟨PermDecision.denied, some "mode-changed"⟩)]
    ∧ enumeratePending (resetHandler (handleToolCall handlerInit "t1" "Bash" "rm x").1)
      = [] := by
  refine ⟨rfl, ?_, rfl⟩
  decide

/-- C3 (amended): `reset()` settles all N pending deferred results, but by
rejecting each with the fixed error `Permission handler reset` (there is
no reason parameter and no Denied decision); afterwards the pending table
is empty, so `enumeratePending` returns the empty list.  Stated for an
arbitrary broker state and an arbitrary member of its pending table. -/
theorem c3_amended_reset_clears_all (s : HandlerState)
    (p : String × PendingEntry) (hp : p ∈ s.pending) :
    enumeratePending (resetHandler s) = []
    ∧ (resetHandler s).settled.length = s.settled.length + s.pending.length
    ∧ (p.2.deferredId, Outcome.rejected "Permission handler reset")
        ∈ (resetHandler s).settled := by
  refine ⟨rfl, by simp [resetHandler], ?_⟩
  simp only [resetHandler, List.mem_append]
  exact Or.inr (List.mem_map.mpr ⟨p, hp, rfl⟩)

/-- Witness for `c3_amended_reset_clears_all` at a concrete one-entry state. -/
theorem c3_amended_reset_clears_all_witness :
    enumeratePending (resetHandler (handleToolCall handlerInit "t1" "Bash" "rm x").1) = []
    ∧ (resetHandler (handleToolCall handlerInit "t1" "Bash" "rm x").1).settled.length
        = ((handleToolCall handlerInit "t1" "Bash" "rm x").1).settled.length
          + ((handleToolCall handlerInit "t1" "Bash" "rm x").1).pending.length
    ∧ (((("t1", ⟨0, "Bash", "rm x"⟩) : String × PendingEntry)).2.deferredId,
        Outcome.rejected "Permission handler reset")
        ∈ (resetHandler (handleToolCall handlerInit "t1" "Bash" "rm x").1).settled :=
  c3_amended_reset_clears_all (handleToolCall handlerInit "t1" "Bash" "rm x").1
    ("t1", ⟨0, "Bash", "rm x"⟩) (by decide)

/-- C4: the `permission` RPC handler is a no-op when the callId has no
pending entry; for a pending callId it removes the entry and fulfills its
deferred exactly once (exactly one settlement is appended, the entry is
gone afterwards, and a second settlement of the same callId is a no-op). -/
theorem c4_settle_exactly_once (s : HandlerState)
    (callId unknownId : String) (e : PendingEntry)
    (approved a2 : Bool) (reason r2 : Option String)
    (hnd : (s.pending.map Prod.fst).Nodup)
    (he : mapGet callId s.pending = some e)
    (hu : mapGet unknownId s.pending = none) :
    permissionRpc s unknownId a2 r2 = s
    ∧ (permissionRpc s callId approved reason).settled
        = s.settled ++ [(e.deferredId, Outcome.resolved (rpcDecision approved reason))]
    ∧ mapGet callId (permissionRpc s callId approved reason).pending = none
    ∧ permissionRpc (permissionRpc s callId approved reason) callId a2 r2
        = permissionRpc s callId approved reason := by
  have hgone : mapGet callId (mapDelete callId s.pending) = none :=
    mapGet_mapDelete_self callId s.pending hnd
  refine ⟨?_, ?_, ?_, ?_⟩
  · simp [permissionRpc, hu]
  · simp [permissionRpc, he]
  · simp [permissionRpc, he, hgone]
  · simp [permissionRpc, he, hgone]

/-- Witness for `c4_settle_exactly_once`: after `requestApproval` of
`t1`, settling `t1` with an approval resolves the deferred with the
`approved` decision exactly once, and a second settle is a no-op. -/
theorem c4_settle_exactly_once_witness :
    permissionRpc (handleToolCall handlerInit "t1" "Bash" "rm x").1 "t9" false none
      = (handleToolCall handlerInit "t1" "Bash" "rm x").1
    ∧ (permissionRpc (handleToolCall handlerInit "t1" "Bash" "rm x").1 "t1" true none).settled
      = ((handleToolCall handlerInit "t1" "Bash" "rm x").1).settled
        ++ [(0, Outcome.resolved (rpcDecision true none))]
    ∧ mapGet "t1"
        (permissionRpc (handleToolCall handlerInit "t1" "Bash" "rm x").1 "t1" true none).pending
      = none
    ∧ permissionRpc
        (permissionRpc (handleToolCall handlerInit "t1" "Bash" "rm x").1 "t1" true none)
        "t1" false none
      = permissionRpc (handleToolCall handlerInit "t1" "Bash" "rm x").1 "t1" true none :=
  c4_settle_exactly_once (handleToolCall handlerInit "t1" "Bash" "rm x").1
    "t1" "t9" ⟨0, "Bash", "rm x"⟩ true false none none
    (by decide) (by decide) (by decide)
/-! ## Noise recognition (isGeminiDebugOutput)

The source predicate is a disjunction of regexp tests, `includes` and
`startsWith` checks over the raw text.  We implement the three regexps
(`/^\[?(DEBUG|INFO|TRACE|WARN)\]?\s/i`, `/^\s*[\[\{]/`,
`/^\s*\d+,?\s*$/`, `/^\s*[\]\}],?\s*$/`) directly on the character
list.  `\s` is modelled by the usual JS whitespace characters. -/

/-- JS regexp `\s` (on the whitespace characters that occur in CLI text). -/
def jsWhitespace (c : Char) : Bool :=
  c = ' ' || c = '\t' || c = '\n' || c = '\r' || c = '\x0b' || c = '\x0c'

/-- Drop leading `\s*`. -/
def skipWs : List Char → List Char
  | [] => []
  | c :: r => if jsWhitespace c then skipWs r else c :: r

/-- Drop a leading run of decimal digits. -/
def dropDigits : List Char → List Char
  | [] => []
  | c :: r => if c.isDigit then dropDigits r else c :: r

/-- Case-insensitive match of the pattern word at the head of the list,
returning the remaining characters on success. -/
def stripWordCI : List Char → List Char → Option (List Char)
  | [], s => some s
  | _ :: _, [] => none
  | p :: ps, c :: cs => if p.toLower = c.toLower then stripWordCI ps cs else none

/-- Does `pat` occur at the head of `s`? -/
def listStartsWith : List Char → List Char → Bool
  | [], _ => true
  | _ :: _, [] => false
  | p :: ps, c :: cs => p = c && listStartsWith ps cs

/-- Does `pat` occur anywhere in `s` (JS `String.includes`)? -/
def listContainsSub (s pat : List Char) : Bool :=
  match s with
  | [] => pat.isEmpty
  | _ :: cs => listStartsWith pat s || listContainsSub cs pat

def strContains (s pat : String) : Bool := listContainsSub s.data pat.data

def strStarts (s pat : String) : Bool := listStartsWith pat.data s.data

/-- `/^\[?(DEBUG|INFO|TRACE|WARN)\]?\s/i`: optional opening bracket, one of
the level words case-insensitively, optional closing bracket, then a
whitespace character. -/
def debugLevelMatch (t : String) : Bool :=
  let afterBracket := match t.data with
    | '[' :: r => r
    | r => r
  let afterWord (w : String) : Option (List Char) := stripWordCI w.data afterBracket
  let tailOk (rest : List Char) : Bool :=
    match rest with
    | ']' :: r2 => (match r2 with | c :: _ => jsWhitespace c | [] => false)
    | c :: _ => jsWhitespace c
    | [] => false
  (afterWord "DEBUG").elim false tailOk
    || (afterWord "INFO").elim false tailOk
    || (afterWord "TRACE").elim false tailOk
    || (afterWord "WARN").elim false tailOk

/-- `/^\s*[\[\{]/`: after optional whitespace the line starts a JSON
fragment with an opening bracket or brace. -/
def isJsonFragmentStart (t : String) : Bool :=
  match skipWs t.data with
  | c :: _ => c = '[' || c = '\x7b'
  | [] => false

/-- `/^\s*\d+,?\s*$/`: a line that is just a number (array element). -/
def isBareNumberLine (t : String) : Bool :=
  match skipWs t.data with
  | c :: _ =>
      c.isDigit &&
        (let rest := dropDigits (skipWs t.data)
         let rest1 := match rest with | ',' :: r => r | r => r
         (skipWs rest1).isEmpty)
  | [] => false

/-- `/^\s*[\]\}],?\s*$/`: a line that is just a closing bracket or brace. -/
def isBareCloserLine (t : String) : Bool :=
  match skipWs t.data with
  | c :: r =>
      (c = ']' || c = '\x7d') &&
        (let r1 := match r with | ',' :: r2 => r2 | r2 => r2
         (skipWs r1).isEmpty)
  | [] => false

/-- `isGeminiDebugOutput` from the Gemini entry point: recognizes
diagnostic/log noise that must not be forwarded to mobile. -/
def isGeminiDebugOutput (t : String) : Bool :=
  t = ""
  || debugLevelMatch t
  || strContains t "[MemoryDiscovery]"
  || strContains t "[BfsFileSearch]"
  || strContains t "[AgentRegistry]"
  || strContains t "Scanning ["
  || strContains t "batch of"
  || strContains t "Experiments loaded"
  || strContains t "experimentIds"
  || strContains t "flagId"
  || strContains t "floatValue"
  || strContains t "stringValue"
  || strContains t "Session ID:"
  || strContains t "Flushing log events"
  || strContains t "Clearcut"
  || strContains t "cached credentials"
  || strContains t "Loaded cached"
  || strStarts t "Loading"
  || strStarts t "Loaded"
  || strStarts t "Found readable"
  || strStarts t "Searching for"
  || strStarts t "Determined project"
  || strStarts t "Initialized with"
  || isJsonFragmentStart t
  || isBareNumberLine t
  || isBareCloserLine t
/-! ## Event normalization (runGemini / runCursor handler switches)

A raw backend event is a loosely-typed JSON object; the fields the two
handler switches read are modelled as strings with `""` for an absent
field (all JS field sniffing is `||`-chained truthiness).  `randomUUID()`
fallbacks for a missing call id are modelled by the opaque placeholder
`freshUUID`. -/

structure RawEvent where
  etype : String := ""          -- msg.type
  eventField : String := ""     -- msg.event
  message : String := ""
  text : String := ""
  content : String := ""
  delta : Bool := false         -- msg.delta === true
  errorField : String := ""     -- msg.error
  tool_name : String := ""
  name : String := ""
  tool_id : String := ""
  toolId : String := ""
  call_id : String := ""
  idField : String := ""        -- msg.id
  function_name : String := ""
  inputField : String := ""     -- opaque rendering of msg.input
  argumentsField : String := "" -- opaque rendering of msg.arguments
  parameters : String := ""     -- opaque rendering of msg.parameters
  output : String := ""
  result : String := ""
  status : String := ""
  hasStats : Bool := false      -- msg.stats present
  deriving DecidableEq, Repr

/-- Placeholder for a `randomUUID()` fallback call id. -/
def freshUUID : String := "00000000-0000-4000-8000-000000000000"

/-- The canonical events handed to the transport sink
(`session.sendGeminiMessage` / `session.sendCursorMessage`,
`sendUsageData`, and the `ready` session event), plus the
`sendSessionEvent` notices used by the session loop. -/
inductive SinkEvent where
  | message (text : String)
  | toolCall (name callId : String)
  | toolCallResult (callId output : String) (isError : Bool)
  | thinkingMsg (text : String)
  | errorMsg (text : String)
  | systemMsg (text : String)
  | ready
  | usage
  | sessionNote (text : String)
  deriving DecidableEq, Repr

/-- Streaming-reassembly state of the Gemini handler:
`currentMessageContent`, `isStreamingMessage` and the `thinking` flag. -/
structure NormState where
  buffer : String := ""
  isStreaming : Bool := false
  thinking : Bool := false
  deriving DecidableEq, Repr

def normInit : NormState := {}

/-- `flushAccumulatedMessage`: emit the buffered text as one message and
clear the buffer, but only when streaming and the buffer is non-empty. -/
def flushAccumulated (st : NormState) : NormState × List SinkEvent :=
  if st.isStreaming && st.buffer ≠ "" then
    ({ st with buffer := "", isStreaming := false }, [SinkEvent.message st.buffer])
  else
    (st, [])

/-- One step of the Gemini handler switch in `runGemini`
(`client.setHandler`), translated case by case from the source. -/
def stepGemini (st : NormState) (e : RawEvent) : NormState × List SinkEvent :=
  let msgType := jsOr e.etype (jsOr e.eventField "unknown")
  if msgType = "message" || msgType = "assistant" || msgType = "assistant_message" then
    let messageText := jsOr e.message (jsOr e.text e.content)
    if e.delta then
      ({ st with isStreaming := true, buffer := st.buffer ++ messageText }, [])
    else
      let finalContent := if st.isStreaming then st.buffer ++ messageText else messageText
      ({ buffer := "", isStreaming := false, thinking := false },
       if finalContent ≠ "" then [SinkEvent.message finalContent] else [])
  else if msgType = "tool_use" then
    let fl := flushAccumulated st
    (fl.1, fl.2 ++ [SinkEvent.toolCall (jsOr e.tool_name (jsOr e.name "unknown"))
                      (jsOr e.tool_id (jsOr e.toolId (jsOr e.call_id freshUUID)))])
  else if msgType = "tool_call" || msgType = "function_call" then
    let fl := flushAccumulated st
    (fl.1, fl.2 ++ [SinkEvent.toolCall
                      (jsOr e.name (jsOr e.function_name (jsOr e.tool_name "unknown")))
                      (jsOr e.call_id (jsOr e.tool_id (jsOr e.toolId (jsOr e.idField freshUUID))))])
  else if msgType = "tool_result" then
    (st, [SinkEvent.toolCallResult
            (jsOr e.tool_id (jsOr e.toolId (jsOr e.call_id (jsOr e.idField freshUUID))))
            (jsOr e.output e.result)
            (e.status = "error" || e.status = "failed")])
  else if msgType = "function_result" then
    (st, [SinkEvent.toolCallResult
            (jsOr e.call_id (jsOr e.tool_id (jsOr e.toolId (jsOr e.idField freshUUID))))
            (jsOr e.output e.result)
            (e.status = "error" || e.status = "failed")])
  else if msgType = "thinking" || msgType = "reasoning" then
    ({ st with thinking := true },
     if jsOr e.text e.content ≠ "" then [SinkEvent.thinkingMsg (jsOr e.text e.content)] else [])
  else if msgType = "error" then
    let errorText := jsOr e.message e.errorField
    (st, if errorText ≠ "" && !(isGeminiDebugOutput errorText) then
           [SinkEvent.errorMsg errorText] else [])
  else if msgType = "system" || msgType = "system_message" then
    (st, [SinkEvent.systemMsg (jsOr e.message e.text)])
  else if msgType = "done" || msgType = "complete" || msgType = "finished" then
    let fl := flushAccumulated st
    ({ fl.1 with thinking := false }, fl.2 ++ [SinkEvent.ready])
  else if msgType = "result" then
    let fl := flushAccumulated st
    ({ fl.1 with thinking := false },
     fl.2 ++ (if e.hasStats then [SinkEvent.usage] else []) ++ [SinkEvent.ready])
  else if msgType = "progress" || msgType = "status" || msgType = "log"
        || msgType = "debug" || msgType = "info" then
    (st, [])
  else
    let unknownText := jsOr e.message (jsOr e.text e.content)
    (st, if unknownText ≠ "" && !(isGeminiDebugOutput unknownText) then
           [SinkEvent.message unknownText] else [])

/-- Process a whole event stream through the Gemini handler, collecting
the canonical events in emission order. -/
def processGemini (st : NormState) : List RawEvent → NormState × List SinkEvent
  | [] => (st, [])
  | e :: es =>
      let step := stepGemini st e
      let rest := processGemini step.1 es
      (rest.1, step.2 ++ rest.2)

/-- State of the Cursor handler (no streaming reassembly there). -/
structure CursorState where
  thinking : Bool := false
  deriving DecidableEq, Repr

/-- One step of the Cursor handler switch in `runCursor`
(`client.setHandler`); the cursor `tool-call-result` message carries no
error flag, modelled as `isError := false`. -/
def stepCursor (st : CursorState) (e : RawEvent) : CursorState × List SinkEvent :=
  let msgType := jsOr e.etype (jsOr e.eventField "unknown")
  if msgType = "message" || msgType = "assistant" || msgType = "assistant_message" then
    let st' := if msgType = "message" || msgType = "assistant" then
                 { st with thinking := false } else st
    (st', [SinkEvent.message (jsOr e.message (jsOr e.text e.content))])
  else if msgType = "tool_call" || msgType = "function_call" then
    (st, [SinkEvent.toolCall (jsOr e.name (jsOr e.function_name "unknown"))
            (jsOr e.call_id (jsOr e.idField freshUUID))])
  else if msgType = "tool_result" || msgType = "function_result" then
    (st, [SinkEvent.toolCallResult (jsOr e.call_id (jsOr e.idField freshUUID))
            (jsOr e.output e.result) false])
  else if msgType = "thinking" || msgType = "reasoning" then
    ({ st with thinking := true },
     if jsOr e.text (jsOr e.content e.message) ≠ "" then
       [SinkEvent.thinkingMsg (jsOr e.text (jsOr e.content e.message))] else [])
  else if msgType = "error" then
    (st, [SinkEvent.errorMsg (jsOr e.message (jsOr e.errorField "Unknown error"))])
  else if msgType = "system" || msgType = "system_message" then
    (st, [SinkEvent.systemMsg (jsOr e.message e.text)])
  else if msgType = "done" || msgType = "complete" || msgType = "finished" then
    ({ st with thinking := false }, [SinkEvent.ready])
  else
    let anyText := jsOr e.message (jsOr e.text e.content)
    (st, if anyText ≠ "" then [SinkEvent.message anyText] else [])

/-- The `CursorClient.startSession` stderr handler: every stderr chunk is
forwarded to the handler as an `error` event, with no noise filtering. -/
def cursorStderrEvent (t : String) : RawEvent := { etype := "error", message := t }
/-! ### String helper lemmas -/

theorem jsOr_empty_right (a : String) : jsOr a "" = a := by
  by_cases h : a = "" <;> simp [jsOr, h]

theorem ite_empty_self (t : String) : (if t = "" then "" else t) = t := by
  by_cases h : t = "" <;> simp [h]

theorem string_append_ne_empty (a b : String) (h : a ≠ "") : a ++ b ≠ "" := by
  intro hab
  apply h
  have hd : (a ++ b).data = a.data ++ b.data := String.data_append a b
  rw [hab] at hd
  have ha : a.data = [] := (List.append_eq_nil.mp hd.symm).1
  cases a
  simp_all

/-! ### Claims C6 and C8 about the normalizer -/

/-- C6 counterexample: feeding the deltas `Hel`, `lo` and then an error
event yields no canonical `Message` at all: the Gemini `error` case does
not flush the delta buffer, which still holds `Hello` afterwards,
refuting the claim that an error is a flushing terminator. -/
theorem c6_error_event_does_not_flush :
    processGemini normInit
      [{ etype := "message", message := "Hel", delta := true },
       { etype := "message", message := "lo", delta := true },
       { etype := "error", message := "Backend exploded" }]
    = ({ buffer := "Hello", isStreaming := true, thinking := false },
       [SinkEvent.errorMsg "Backend exploded"])
    ∧ SinkEvent.message "Hello" ∉
      (processGemini normInit
        [{ etype := "message", message := "Hel", delta := true },
         { etype := "message", message := "lo", delta := true },
         { etype := "error", message := "Backend exploded" }]).2 := by
  constructor
  · decide
  · decide

/-- C6 (amended): delta-flagged text is appended to the internal buffer
and a single canonical `Message` is emitted at a non-delta message, a
tool-call event, or a turn-completion event, after which the buffer is
cleared; an error event is not a flush point (the buffered text is held
for the next terminator).  Deltas `Hel`, `lo` followed by a non-delta
terminator yield exactly one `Message(Hello)`, and flushing an empty
buffer emits nothing. -/
theorem c6_amended_streaming_reassembly (st : NormState) (t : String)
    (h1 : st.isStreaming = true) (h2 : st.buffer ≠ "") :
    stepGemini st { etype := "message", message := t, delta := true }
      = ({ st with buffer := st.buffer ++ t, isStreaming := true }, [])
    ∧ stepGemini st { etype := "tool_use" }
      = ({ st with buffer := "", isStreaming := false },
         [SinkEvent.message st.buffer, SinkEvent.toolCall "unknown" freshUUID])
    ∧ stepGemini st { etype := "done" }
      = ({ buffer := "", isStreaming := false, thinking := false },
         [SinkEvent.message st.buffer, SinkEvent.ready])
    ∧ stepGemini st { etype := "message", message := t, delta := false }
      = ({ buffer := "", isStreaming := false, thinking := false },
         [SinkEvent.message (st.buffer ++ t)])
    ∧ processGemini normInit
        [{ etype := "message", message := "Hel", delta := true },
         { etype := "message", message := "lo", delta := true },
         { etype := "message", message := "", delta := false }]
      = ({ buffer := "", isStreaming := false, thinking := false },
         [SinkEvent.message "Hello"])
    ∧ stepGemini normInit { etype := "done" }
      = ({ buffer := "", isStreaming := false, thinking := false }, [SinkEvent.ready]) := by
  refine ⟨?_, ?_, ?_, ?_, by decide, by decide⟩
  · simp [stepGemini, jsOr, ite_empty_self]
  · simp [stepGemini, jsOr, flushAccumulated, h1, h2]
  · simp [stepGemini, jsOr, flushAccumulated, h1, h2]
  · simp [stepGemini, jsOr, ite_empty_self, h1, string_append_ne_empty st.buffer t h2]

/-- Witness for `c6_amended_streaming_reassembly` with the buffer holding
`Hello`. -/
theorem c6_amended_streaming_reassembly_witness :
    stepGemini { buffer := "Hello", isStreaming := true, thinking := false }
        { etype := "message", message := "!", delta := true }
      = ({ buffer := "Hello!", isStreaming := true, thinking := false }, [])
    ∧ stepGemini { buffer := "Hello", isStreaming := true, thinking := false }
        { etype := "tool_use" }
      = ({ buffer := "", isStreaming := false, thinking := false },
         [SinkEvent.message "Hello", SinkEvent.toolCall "unknown" freshUUID])
    ∧ stepGemini { buffer := "Hello", isStreaming := true, thinking := false }
        { etype := "done" }
      = ({ buffer := "", isStreaming := false, thinking := false },
         [SinkEvent.message "Hello", SinkEvent.ready])
    ∧ stepGemini { buffer := "Hello", isStreaming := true, thinking := false }
        { etype := "message", message := "!", delta := false }
      = ({ buffer := "", isStreaming := false, thinking := false },
         [SinkEvent.message "Hello!"])
    ∧ processGemini normInit
        [{ etype := "message", message := "Hel", delta := true },
         { etype := "message", message := "lo", delta := true },
         { etype := "message", message := "", delta := false }]
      = ({ buffer := "", isStreaming := false, thinking := false },
         [SinkEvent.message "Hello"])
    ∧ stepGemini normInit { etype := "done" }
      = ({ buffer := "", isStreaming := false, thinking := false }, [SinkEvent.ready]) :=
  c6_amended_streaming_reassembly
    { buffer := "Hello", isStreaming := true, thinking := false } "!" rfl (by decide)

/-- C8 counterexample: the line `[DEBUG] test run` is recognized as
diagnostic noise by `isGeminiDebugOutput`, yet the Cursor pipeline
delivers it to the transport sink: the `CursorClient` stderr handler
forwards every stderr chunk as an `error` event and the `runCursor`
`error` case sends it with no noise filtering. -/
theorem c8_cursor_delivers_noise_to_sink :
    isGeminiDebugOutput "[DEBUG] test run" = true
    ∧ (stepCursor {} (cursorStderrEvent "[DEBUG] test run")).2
      = [SinkEvent.errorMsg "[DEBUG] test run"] := by
  constructor
  · decide
  · decide

/-- C8 (amended): in the Gemini pipeline, any text recognized by
`isGeminiDebugOutput` produces no canonical event, whether it arrives as
an `error` event (via `message` or `error` field) or as an
unknown-typed event; the Cursor pipeline performs no such filtering. -/
theorem c8_amended_gemini_filters_noise (st : NormState) (t : String)
    (h : isGeminiDebugOutput t = true) :
    (stepGemini st { etype := "error", message := t }).2 = []
    ∧ (stepGemini st { etype := "error", errorField := t }).2 = []
    ∧ (stepGemini st { etype := "unrecognized_gemini_event", message := t }).2 = [] := by
  by_cases ht : t = ""
  · subst ht
    refine ⟨?_, ?_, ?_⟩ <;> simp [stepGemini, jsOr]
  · refine ⟨?_, ?_, ?_⟩ <;> simp [stepGemini, jsOr, ht, h]

/-- Witness for `c8_amended_gemini_filters_noise` on a recognized noise
line. -/
theorem c8_amended_gemini_filters_noise_witness :
    (stepGemini normInit { etype := "error", message := "[DEBUG] boot" }).2 = []
    ∧ (stepGemini normInit { etype := "error", errorField := "[DEBUG] boot" }).2 = []
    ∧ (stepGemini normInit
        { etype := "unrecognized_gemini_event", message := "[DEBUG] boot" }).2 = [] :=
  c8_amended_gemini_filters_noise normInit "[DEBUG] boot" (by decide)
/-! ## Identifier capture (updateIdentifiersFromMessage)

`GeminiClient.updateIdentifiersFromMessage` and
`CursorClient.updateIdentifiersFromMessage` are textually identical; one
definition covers both.  A backend event exposes identifier candidates
through the priority-ordered keys `sessionId`, `session_id`,
`session.id` (and likewise for the conversation id). -/

structure Identifiers where
  sessionId : Option String := none
  conversationId : Option String := none
  deriving DecidableEq, Repr

/-- The identifier-bearing fields of a backend message. -/
structure IdEvent where
  sessionId : String := ""
  session_id : String := ""
  sessionNested : String := ""       -- message.session?.id
  conversationId : String := ""
  conversation_id : String := ""
  conversationNested : String := ""  -- message.conversation?.id
  deriving DecidableEq, Repr

def pickSessionId (m : IdEvent) : String :=
  jsOr m.sessionId (jsOr m.session_id m.sessionNested)

def pickConversationId (m : IdEvent) : String :=
  jsOr m.conversationId (jsOr m.conversation_id m.conversationNested)

/-- `updateIdentifiersFromMessage`: latch each identifier on its first
truthy appearance (`if (sessionId && !this.sessionId)`); an already-latched
field is never overwritten. -/
def updateIdentifiersFromMessage (ids : Identifiers) (m : IdEvent) : Identifiers :=
  { sessionId :=
      if pickSessionId m ≠ "" && !(jsTruthyOpt ids.sessionId) then
        some (pickSessionId m)
      else ids.sessionId,
    conversationId :=
      if pickConversationId m ≠ "" && !(jsTruthyOpt ids.conversationId) then
        some (pickConversationId m)
      else ids.conversationId }

/-- Processing a stream of backend messages through the identifier latch. -/
def processIdEvents (ids : Identifiers) (ms : List IdEvent) : Identifiers :=
  ms.foldl updateIdentifiersFromMessage ids

theorem updateIds_latched (ids : Identifiers) (m : IdEvent)
    (h : jsTruthyOpt ids.sessionId = true) :
    (updateIdentifiersFromMessage ids m).sessionId = ids.sessionId := by
  simp [updateIdentifiersFromMessage, h]

theorem processIdEvents_latched :
    ∀ (ms : List IdEvent) (ids : Identifiers),
      jsTruthyOpt ids.sessionId = true →
      (processIdEvents ids ms).sessionId = ids.sessionId := by
  intro ms
  induction ms with
  | nil => intro ids _; rfl
  | cons m rest ih =>
      intro ids h
      have hstep : (updateIdentifiersFromMessage ids m).sessionId = ids.sessionId :=
        updateIds_latched ids m h
      have htr : jsTruthyOpt (updateIdentifiersFromMessage ids m).sessionId = true := by
        rw [hstep]; exact h
      calc (processIdEvents ids (m :: rest)).sessionId
          = (processIdEvents (updateIdentifiersFromMessage ids m) rest).sessionId := rfl
        _ = (updateIdentifiersFromMessage ids m).sessionId := ih _ htr
        _ = ids.sessionId := hstep

/-- C7: the first event exposing a session identifier latches it and
subsequent differing values are ignored: a latched (truthy) `sessionId`
survives any further event and any further event stream, and the stream
`[sessionId=A, sessionId=B]` latches `A` permanently. -/
theorem c7_identifier_latch_first_write_wins (ids : Identifiers)
    (m : IdEvent) (ms : List IdEvent)
    (h : jsTruthyOpt ids.sessionId = true) :
    (updateIdentifiersFromMessage ids m).sessionId = ids.sessionId
    ∧ (processIdEvents ids ms).sessionId = ids.sessionId
    ∧ (processIdEvents {} [{ sessionId := "A" }, { sessionId := "B" }]).sessionId
        = some "A"
    ∧ (processIdEvents {} ([{ sessionId := "A" }, { sessionId := "B" }] ++ ms)).sessionId
        = some "A" := by
  refine ⟨updateIds_latched ids m h, processIdEvents_latched ms ids h, by decide, ?_⟩
  have hAB : processIdEvents {} [{ sessionId := "A" }, { sessionId := "B" }]
      = processIdEvents {} [({ sessionId := "A" } : IdEvent)] := by decide
  calc (processIdEvents {} ([{ sessionId := "A" }, { sessionId := "B" }] ++ ms)).sessionId
      = (processIdEvents (processIdEvents {} [{ sessionId := "A" }, { sessionId := "B" }]) ms).sessionId := by
        simp [processIdEvents, List.foldl_append]
    _ = some "A" := by
        rw [processIdEvents_latched ms _ (by decide)]
        decide

/-- Witness for `c7_identifier_latch_first_write_wins` at a latched state. -/
theorem c7_identifier_latch_first_write_wins_witness :
    (updateIdentifiersFromMessage { sessionId := some "A" } { sessionId := "B" }).sessionId
      = ({ sessionId := some "A" } : Identifiers).sessionId
    ∧ (processIdEvents { sessionId := some "A" } [{ sessionId := "C" }]).sessionId
      = ({ sessionId := some "A" } : Identifiers).sessionId
    ∧ (processIdEvents {} [{ sessionId := "A" }, { sessionId := "B" }]).sessionId
      = some "A"
    ∧ (processIdEvents {} ([{ sessionId := "A" }, { sessionId := "B" }]
        ++ [{ sessionId := "C" }])).sessionId = some "A" :=
  c7_identifier_latch_first_write_wins { sessionId := some "A" }
    { sessionId := "B" } [{ sessionId := "C" }] (by decide)

/-! ## Gemini CLI spawn arguments (GeminiClient.startSession / continueSession)

`startSession` kills any existing process, then builds the CLI argument
list from the configuration: `--output-format stream-json` and `-p
prompt` in non-interactive mode, `-m model` when a model is set; an
`mcpServers` entry only logs a warning (the CLI accepts no flag for it).
`continueSession(prompt)` always runs a fresh invocation configured with
only the new prompt and the current working directory. -/

structure GeminiSessionConfig where
  prompt : Option String := none
  model : Option String := none
  mcpConfigured : Bool := false  -- mcpServers present with at least one key
  cwd : String := ""
  deriving DecidableEq, Repr

/-- Interactive-mode test of `startSession`: opt-in env flag, both stdio
streams are TTYs, and no prompt was provided. -/
def geminiIsInteractive (forceInteractive ttyIn ttyOut : Bool)
    (cfg : GeminiSessionConfig) : Bool :=
  forceInteractive && ttyIn && ttyOut && !(jsTruthyOpt cfg.prompt)

/-- The argument list built by `startSession` (mcpServers adds nothing). -/
def geminiSpawnArgs (cfg : GeminiSessionConfig) (interactive : Bool) : List String :=
  (if !interactive then
     ["--output-format", "stream-json"]
       ++ (match cfg.prompt with
           | some p => if p ≠ "" then ["-p", p] else []
           | none => [])
   else [])
  ++ (match cfg.model with
      | some m => if m ≠ "" then ["-m", m] else []
      | none => [])

/-- Process-level state of a `GeminiClient`. -/
structure GeminiClientState where
  processAlive : Bool := false
  sessionId : Option String := none
  conversationId : Option String := none
  deriving DecidableEq, Repr

/-- The observable effect of one `startSession` call: whether a previous
process was killed, the argv of the spawned CLI, and the client state
afterwards (identifiers are not touched by `startSession`). -/
structure SpawnOutcome where
  killedPrevious : Bool
  args : List String
  state : GeminiClientState
  deriving DecidableEq, Repr

def startSessionSpawn (c : GeminiClientState) (cfg : GeminiSessionConfig)
    (forceInteractive ttyIn ttyOut : Bool) : SpawnOutcome :=
  { killedPrevious := c.processAlive,
    args := geminiSpawnArgs cfg (geminiIsInteractive forceInteractive ttyIn ttyOut cfg),
    state := { c with processAlive := true } }

/-- The configuration `continueSession` passes to `startSession`:
`{ prompt, cwd: process.cwd(), mcpServers: undefined }` - no model, no
MCP servers, no reference to the previous backend session. -/
def continueConfig (prompt cwd : String) : GeminiSessionConfig :=
  { prompt := some prompt, cwd := cwd, model := none, mcpConfigured := false }

def continueSessionSpawn (c : GeminiClientState) (prompt cwd : String)
    (forceInteractive ttyIn ttyOut : Bool) : SpawnOutcome :=
  startSessionSpawn c (continueConfig prompt cwd) forceInteractive ttyIn ttyOut

/-- C10: `continueSession(prompt)` terminates any existing Gemini process
(the spawn kills a previous process exactly when one was alive) and
spawns a fresh CLI invocation whose argv is exactly
`--output-format stream-json -p prompt`: the previously selected model,
the MCP server configuration and the previous backend session identity
do not appear in the continuation. -/
theorem c10_continue_session_fresh_invocation (c : GeminiClientState)
    (prompt cwd : String) (forceInteractive ttyIn ttyOut : Bool)
    (h : prompt ≠ "") :
    (continueSessionSpawn c prompt cwd forceInteractive ttyIn ttyOut).killedPrevious
      = c.processAlive
    ∧ (continueSessionSpawn c prompt cwd forceInteractive ttyIn ttyOut).args
      = ["--output-format", "stream-json", "-p", prompt]
    ∧ (continueConfig prompt cwd).model = none
    ∧ (continueConfig prompt cwd).mcpConfigured = false := by
  refine ⟨rfl, ?_, rfl, rfl⟩
  simp [continueSessionSpawn, startSessionSpawn, geminiSpawnArgs, geminiIsInteractive,
        continueConfig, jsTruthyOpt, h]

/-- Witness for `c10_continue_session_fresh_invocation` with a live
process holding latched identifiers, a previously selected model being
dropped by the continuation config. -/
theorem c10_continue_session_fresh_invocation_witness :
    (continueSessionSpawn
        { processAlive := true, sessionId := some "sess-1", conversationId := none }
        "and now run the tests" "/work" true true true).killedPrevious = true
    ∧ (continueSessionSpawn
        { processAlive := true, sessionId := some "sess-1", conversationId := none }
        "and now run the tests" "/work" true true true).args
      = ["--output-format", "stream-json", "-p", "and now run the tests"]
    ∧ (continueConfig "and now run the tests" "/work").model = none
    ∧ (continueConfig "and now run the tests" "/work").mcpConfigured = false :=
  c10_continue_session_fresh_invocation
    { processAlive := true, sessionId := some "sess-1", conversationId := none }
    "and now run the tests" "/work" true true true (by decide)
/-! ## Session loop (runGemini / runCursor while-loop body)

The loop drains a batch, checks the mode fingerprint against the active
session, and either restarts (tearing down the client session and
resetting the permission handler) or hands the batch to the adapter.
`MessageQueue2` itself is not part of this source tree; its drain
operation is modelled from the spec (section 4.1). -/

/-- The `EnhancedMode` tagged onto each queued message. -/
structure EnhancedMode where
  permissionMode : String
  model : Option String := none
  deriving DecidableEq, Repr

/-- Modelled from the spec: the configuration fingerprint is
`hashObject { permissionMode, model }`, a deterministic hash under which
two configurations are interchangeable iff their fingerprints match; it
is modelled as the hashed record itself. -/
def hashMode (m : EnhancedMode) : EnhancedMode := m

/-- A queued user message with its mode tag. -/
structure QueuedMsg where
  text : String
  mode : EnhancedMode
  isolated : Bool := false
  deriving DecidableEq, Repr

/-- The drained batch handed to the loop body: joined text, mode, and the
mode hash (`message.hash`). -/
structure Batch where
  message : String
  mode : EnhancedMode
  hash : EnhancedMode
  deriving DecidableEq, Repr

/-- Modelled from the spec: `MessageQueue2.waitForMessagesAndGetAsString`
(`drainNextBatch`) removes the head message plus every immediately
following message sharing its fingerprint and not isolated, stopping at
the first differing fingerprint or isolated message, joins the texts in
arrival order with a separator, and leaves the rest queued.  The
`MessageQueue2` implementation is not under this source tree; only this
spec contract is used. -/
def drainNextBatch : List QueuedMsg → Option (Batch × List QueuedMsg)
  | [] => none
  | m :: rest =>
      let run := rest.takeWhile (fun q => hashMode q.mode = hashMode m.mode && !q.isolated)
      let remaining := rest.dropWhile (fun q => hashMode q.mode = hashMode m.mode && !q.isolated)
      some ({ message := String.intercalate "\n\n" (m.text :: run.map QueuedMsg.text),
              mode := m.mode,
              hash := hashMode m.mode }, remaining)

/-- The extra instruction appended to the very first prompt of a session. -/
def titleInstruction : String :=
  "Based on this message, call functions.vibe__change_title to change chat session title that would represent the current task. If chat idea would change dramatically - call this function again to update the title."

/-- The mutable state of one `runGemini` loop: the queue, the
`wasCreated`/`currentModeHash`/`first`/`thinking` flags, the permission
handler, and the `GeminiClient` fields touched by `clearSession`. -/
structure LoopState where
  queue : List QueuedMsg
  wasCreated : Bool
  currentModeHash : Option EnhancedMode
  first : Bool
  thinking : Bool
  handler : HandlerState
  clientSessionId : Option String
  clientConversationId : Option String
  clientProcessAlive : Bool
  deriving DecidableEq, Repr

/-- `GeminiClient.clearSession`: kill the process, close the reader, and
null both latched identifiers. -/
def clearClientSession (s : LoopState) : LoopState :=
  { s with clientProcessAlive := false,
           clientSessionId := none,
           clientConversationId := none }

/-- How the adapter call of one loop iteration ends: normal completion,
an `AbortError` (user abort), or any other error (backend failure). -/
inductive TurnResult where
  | success
  | abortError
  | otherError
  deriving DecidableEq, Repr

/-- The observable outcome of one loop iteration: the state afterwards,
the `sendSessionEvent` notices emitted, the prompt handed to the adapter
(if any), and whether the loop exits. -/
structure IterResult where
  state : LoopState
  sessionEvents : List SinkEvent
  promptSent : Option String
  exited : Bool
  deriving DecidableEq, Repr

/-- One iteration of the `runGemini` while-loop (non-interactive path),
translated from the source: drain a batch (loop exits when the queue
ends); on a mode change tear down the client session, reset the
permission handler and `continue` without using the drained batch;
otherwise record the batch hash and hand the batch text to
`startSession`/`continueSession`, handling `AbortError` and other errors
as in the catch block, with the `finally` block resetting the permission
handler and the thinking flag. -/
def loopIter (s : LoopState) (turn : TurnResult) : IterResult :=
  match drainNextBatch s.queue with
  | none => { state := s, sessionEvents := [], promptSent := none, exited := true }
  | some (batch, queue') =>
      let s0 := { s with queue := queue' }
      if s0.wasCreated && s0.currentModeHash.isSome
          && !(s0.currentModeHash = some batch.hash) then
        { state := { (clearClientSession s0) with
                       wasCreated := false,
                       currentModeHash := none,
                       handler := resetHandler s0.handler,
                       thinking := false },
          sessionEvents := [], promptSent := none, exited := false }
      else
        let s1 := { s0 with currentModeHash := some batch.hash }
        let promptText :=
          if !s1.wasCreated then
            (if s1.first then batch.message ++ "\n\n" ++ titleInstruction
             else batch.message)
          else batch.message
        let s2 :=
          match turn, s1.wasCreated with
          | .success, false =>
              { s1 with wasCreated := true, first := false, clientProcessAlive := true }
          | .success, true => { s1 with clientProcessAlive := true }
          | .abortError, _ => { s1 with wasCreated := false, currentModeHash := none }
          | .otherError, _ => s1
        let evs :=
          match turn with
          | .success => []
          | .abortError => [SinkEvent.sessionNote "Aborted by user"]
          | .otherError => [SinkEvent.sessionNote "Process exited unexpectedly"]
        { state := { s2 with handler := resetHandler s2.handler, thinking := false },
          sessionEvents := evs,
          promptSent := some promptText,
          exited := false }
/-! ### Claims C1, C5, C9 about the session loop -/

/-- An Active session (mode hash `default`) with one differing-fingerprint
batch queued, a pending permission and latched identifiers. -/
def restartDemoState : LoopState :=
  { queue := [{ text := "switch to yolo please", mode := { permissionMode := "yolo" } }],
    wasCreated := true,
    currentModeHash := some { permissionMode := "default" },
    first := false,
    thinking := false,
    handler := (handleToolCall handlerInit "t1" "Bash" "ls").1,
    clientSessionId := some "sess-1",
    clientConversationId := none,
    clientProcessAlive := true }

/-- C1 (code bug): when the next drained batch's fingerprint differs from
the Active session's fingerprint, the restart branch tears the session
down and `continue`s without using the drained batch: no prompt reaches
the adapter in this iteration, and the batch is in neither the remaining
queue nor any pending slot of the post-iteration state, so its text
never reaches the backend - contradicting the documented restart
behavior (the sibling Codex loop carries the batch forward as `pending`). -/
theorem c1_mode_change_discards_drained_batch :
    (loopIter restartDemoState .success).promptSent = none
    ∧ (loopIter restartDemoState .success).state.queue = []
    ∧ (loopIter restartDemoState .success).exited = false
    ∧ (loopIter restartDemoState .success).state.wasCreated = false
    ∧ (loopIter restartDemoState .success).state.currentModeHash = none := by
  refine ⟨rfl, ?_, rfl, rfl, rfl⟩
  decide

/-- C5: in the restart branch (Active session, differing batch
fingerprint), the post-iteration state has an empty pending-permission
table and both latched identifiers cleared back to null, before any next
session start (no prompt is handed to the adapter in this iteration). -/
theorem c5_restart_clears_pending_and_identifiers (s : LoopState)
    (batch : Batch) (queue' : List QueuedMsg) (h0 : EnhancedMode) (turn : TurnResult)
    (hdrain : drainNextBatch s.queue = some (batch, queue'))
    (hw : s.wasCreated = true)
    (hh : s.currentModeHash = some h0)
    (hne : batch.hash ≠ h0) :
    enumeratePending (loopIter s turn).state.handler = []
    ∧ (loopIter s turn).state.clientSessionId = none
    ∧ (loopIter s turn).state.clientConversationId = none
    ∧ (loopIter s turn).state.clientProcessAlive = false
    ∧ (loopIter s turn).promptSent = none := by
  have hne' : ¬(some h0 = some batch.hash) := by
    intro hc
    exact hne (Option.some.inj hc).symm
  simp [loopIter, hdrain, hw, hh, hne', clearClientSession, resetHandler, enumeratePending]

/-- Witness for `c5_restart_clears_pending_and_identifiers` on the
demo Active state. -/
theorem c5_restart_clears_pending_and_identifiers_witness :
    enumeratePending (loopIter restartDemoState .success).state.handler = []
    ∧ (loopIter restartDemoState .success).state.clientSessionId = none
    ∧ (loopIter restartDemoState .success).state.clientConversationId = none
    ∧ (loopIter restartDemoState .success).state.clientProcessAlive = false
    ∧ (loopIter restartDemoState .success).promptSent = none :=
  c5_restart_clears_pending_and_identifiers restartDemoState
    { message := "switch to yolo please",
      mode := { permissionMode := "yolo" },
      hash := { permissionMode := "yolo" } }
    [] { permissionMode := "default" } .success
    (by decide) rfl rfl (by decide)

/-- C9: on a mid-turn backend failure that is not a user abort (the
non-`AbortError` catch path), the undrained queue contents are preserved
unchanged, a session notice (`Process exited unexpectedly`) is sent to
the remote principal, and the loop re-enters the drain wait without
exiting and without dropping the session (`wasCreated` and the current
mode hash are unchanged), so the session remains usable for the next
turn. -/
theorem c9_nonabort_error_preserves_queue (s : LoopState)
    (batch : Batch) (queue' : List QueuedMsg)
    (hdrain : drainNextBatch s.queue = some (batch, queue'))
    (hsame : s.currentModeHash = some batch.hash) :
    (loopIter s .otherError).state.queue = queue'
    ∧ (loopIter s .otherError).sessionEvents
        = [SinkEvent.sessionNote "Process exited unexpectedly"]
    ∧ (loopIter s .otherError).exited = false
    ∧ (loopIter s .otherError).state.wasCreated = s.wasCreated
    ∧ (loopIter s .otherError).state.currentModeHash = some batch.hash := by
  simp [loopIter, hdrain, hsame]

/-- An Active session (mode hash `default`) whose adapter call is about
to fail, with one more (differing-mode) message still queued behind the
drained one. -/
def failDemoState : LoopState :=
  { queue := [{ text := "build it", mode := { permissionMode := "default" } },
              { text := "later message", mode := { permissionMode := "yolo" } }],
    wasCreated := true,
    currentModeHash := some { permissionMode := "default" },
    first := false,
    thinking := true,
    handler := handlerInit,
    clientSessionId := some "sess-1",
    clientConversationId := none,
    clientProcessAlive := true }

/-- Witness for `c9_nonabort_error_preserves_queue`: an Active session
whose adapter call fails mid-turn with a non-abort error, with one more
message still queued. -/
theorem c9_nonabort_error_preserves_queue_witness :
    (loopIter failDemoState .otherError).state.queue
      = [{ text := "later message", mode := { permissionMode := "yolo" } }]
    ∧ (loopIter failDemoState .otherError).sessionEvents
      = [SinkEvent.sessionNote "Process exited unexpectedly"]
    ∧ (loopIter failDemoState .otherError).exited = false
    ∧ (loopIter failDemoState .otherError).state.wasCreated = failDemoState.wasCreated
    ∧ (loopIter failDemoState .otherError).state.currentModeHash
      = some { permissionMode := "default" } :=
  c9_nonabort_error_preserves_queue failDemoState
    { message := "build it",
      mode := { permissionMode := "default" },
      hash := { permissionMode := "default" } }
    [{ text := "later message", mode := { permissionMode := "yolo" } }]
    (by decide) rfl
